import Mathlib

/-!
Verification of the claim-submission controller of the Veritas Health Agent
single-page client.

The repository holds three copies of the same React component `App`:

* `src/frontend/src/App.jsx` and `src/unnamed/part_000` - the *basic* variant
  (variant A): guard `if (!claim && !imageBase64) return`, no timeout, no
  `error` state, no `response.ok` check, request body carries the stored
  image.
* `src/unnamed/part_001` - the *hardened* variant (variant B): guard
  `if (!claim) return`, 120-second abort timer, `response.ok` check that
  throws `Server error: ${status}`, an `error` state set by classifying the
  caught error by its `name`, request body always carries `image_base64: null`.

The embedding below models the `analyzeClaim` operation of each variant as a
pure function from the pre-state and the fetch outcome to the dispatched
request (if any) and the ordered list of intermediate view states produced by
the `setX` calls, plus (basic variant) the blocking alert message surfaced.
The rendering classification (`verdict.includes(...)` chains) is modelled as
pure functions from the verdict string to the CSS colour literal and icon.
-/

/-- Did `pat` occur starting exactly at the head of the character list? -/
def charsStartWith : List Char → List Char → Bool
  | [], _ => true
  | _ :: _, [] => false
  | p :: ps, c :: cs => p == c && charsStartWith ps cs

/-- Does the pattern occur anywhere inside the character list? -/
def charsContain (pat : List Char) : List Char → Bool
  | [] => charsStartWith pat []
  | c :: cs => charsStartWith pat (c :: cs) || charsContain pat cs

/-- Model of JavaScript `String.prototype.includes` (case-sensitive substring
containment), as used by the verdict rendering and by statements about error
messages. -/
def includes (s pat : String) : Bool := charsContain pat.toList s.toList

/-- The structured analysis record returned by the service, as consumed by the
rendering code (`verdict`, `confidence`, `explanation`,
`corrective_information`, `sources`).  JSON numbers are modelled as
rationals. -/
structure AnalysisResult where
  verdict : String
  confidence : Rat
  explanation : String
  corrective_information : Option String
  sources : List String
deriving DecidableEq, Repr

/-- The JSON request body `{ text, image_base64 }` built by both variants. -/
structure Payload where
  text : String
  image_base64 : Option String
deriving DecidableEq, Repr

/-- View state of the basic variant (`App.jsx` / `part_000`): the four
`useState` hooks `claim`, `imageBase64`, `result`, `loading`. -/
structure BasicState where
  claim : String
  imageBase64 : Option String
  result : Option AnalysisResult
  loading : Bool
deriving DecidableEq, Repr

/-- View state of the hardened variant (`part_001`): the five `useState`
hooks `claim`, `imageBase64` (declared but never written), `result`,
`loading`, `error`. -/
structure HardenedState where
  claim : String
  imageBase64 : Option String
  result : Option AnalysisResult
  loading : Bool
  error : Option String
deriving DecidableEq, Repr

/-- Initial hook values of the hardened variant: `useState('')`,
`useState(null)`, `useState(null)`, `useState(false)`, `useState(null)`. -/
def initialHardenedState : HardenedState :=
  { claim := "", imageBase64 := none, result := none, loading := false,
    error := none }

/-- A JavaScript error value as seen by the `catch` blocks: only its `name`
and `message` are observable to the code. -/
structure JsError where
  name : String
  message : String
deriving DecidableEq, Repr

/-- Outcome of the `fetch` call in the basic variant, which passes no abort
signal: either the server responds with a status and a body (parsed to
`some r` by `response.json()`, or `none` when the body is not valid JSON),
or the connection fails. -/
inductive BasicFetchOutcome where
  | response (status : Nat) (body : Option AnalysisResult)
  | networkError
deriving DecidableEq, Repr

/-- Outcome of the `fetch` call in the hardened variant, which additionally
can be aborted by the 120-second timer. -/
inductive FetchOutcome where
  | response (status : Nat) (body : Option AnalysisResult)
  | networkError
  | timeoutAbort
deriving DecidableEq, Repr

/-- `response.ok`: the HTTP status is in the 2xx range. -/
def httpOk (status : Nat) : Bool := 200 ≤ status && status ≤ 299

/-- The message of the error thrown by the hardened variant on a non-2xx
status: `Server error: ${response.status}`. -/
def serverErrorMessage (status : Nat) : String :=
  "Server error: " ++ toString status

/-- Timeout-specific message set by the hardened variant on `AbortError`. -/
def timeoutMessage : String :=
  "Request timed out. The server took too long to respond."

/-- Generic connectivity message set by the hardened variant on any other
caught error. -/
def connectMessage : String :=
  "Failed to connect to the server. Please ensure the backend is running."

/-- The blocking alert text of the basic variant's `catch` block. -/
def basicAlertMessage : String :=
  "Failed to analyze claim. Make sure the backend is running."

/-- The `try` body of the basic variant after the request is dispatched: no
status check, `response.json()` then the parsed data; a parse failure throws
a `SyntaxError`, a connection failure throws a `TypeError`. -/
def basicTryBody : BasicFetchOutcome → Except JsError AnalysisResult
  | .response _ (some r) => .ok r
  | .response _ none => .error ⟨"SyntaxError", "Unexpected token"⟩
  | .networkError => .error ⟨"TypeError", "Failed to fetch"⟩

/-- The `try` body of the hardened variant after the request is dispatched:
`if (!response.ok) throw new Error(`Server error: ${status}`)`, then
`response.json()`; the abort timer surfaces as an `AbortError`. -/
def hardenedTryBody : FetchOutcome → Except JsError AnalysisResult
  | .response status body =>
      if httpOk status then
        match body with
        | some r => .ok r
        | none => .error ⟨"SyntaxError", "Unexpected token"⟩
      else .error ⟨"Error", serverErrorMessage status⟩
  | .networkError => .error ⟨"TypeError", "Failed to fetch"⟩
  | .timeoutAbort => .error ⟨"AbortError", "The operation was aborted"⟩

/-- The hardened variant's `catch` block: classify the caught error by its
`name` - `AbortError` gets the timeout message, everything else the generic
connectivity message. -/
def classifyError (e : JsError) : String :=
  if e.name = "AbortError" then timeoutMessage else connectMessage

/-- Result of one invocation of the basic variant's `analyzeClaim`: the
dispatched request (none when the guard refused), the ordered intermediate
view states produced by the `setX` calls, and the alert surfaced, if any. -/
structure BasicRun where
  request : Option Payload
  trace : List BasicState
  alert : Option String
deriving DecidableEq, Repr

/-- Result of one invocation of the hardened variant's `analyzeClaim`. -/
structure HardenedRun where
  request : Option Payload
  trace : List HardenedState
deriving DecidableEq, Repr

/-- The state an invocation leaves behind: the last state of the trace, or
the pre-state when the trace is empty (guard refusal changes nothing). -/
def finalState {α : Type} (s : α) (trace : List α) : α := trace.getLastD s

/-- `analyzeClaim` of the basic variant (`App.jsx` lines 10-33, identical in
`part_000`): guard `if (!claim && !imageBase64) return`; `setLoading(true)`;
`setResult(null)`; dispatch `{ text: claim, image_base64: imageBase64 }`; on
success `setResult(data)`; on any caught error `alert(...)`; `finally
setLoading(false)`. -/
def analyzeClaimBasic (s : BasicState) (outcome : BasicFetchOutcome) :
    BasicRun :=
  if s.claim = "" ∧ s.imageBase64 = none then ⟨none, [], none⟩
  else
    let s1 := { s with loading := true }
    let s2 := { s1 with result := none }
    let payload : Payload := { text := s.claim, image_base64 := s.imageBase64 }
    match basicTryBody outcome with
    | .ok r =>
        let s3 := { s2 with result := some r }
        ⟨some payload, [s1, s2, s3, { s3 with loading := false }], none⟩
    | .error _ =>
        ⟨some payload, [s1, s2, { s2 with loading := false }],
          some basicAlertMessage⟩

/-- `analyzeClaim` of the hardened variant (`part_001` lines 11-52): guard
`if (!claim) return`; `setLoading(true)`; `setResult(null)`;
`setError(null)`; dispatch `{ text: claim, image_base64: null }` with a
120-second abort timer; throw on non-2xx status; on success
`setResult(data)`; on a caught error set `error` to the classified message;
`finally setLoading(false)`. -/
def analyzeClaimHardened (s : HardenedState) (outcome : FetchOutcome) :
    HardenedRun :=
  if s.claim = "" then ⟨none, []⟩
  else
    let s1 := { s with loading := true }
    let s2 := { s1 with result := none }
    let s3 := { s2 with error := none }
    let payload : Payload := { text := s.claim, image_base64 := none }
    match hardenedTryBody outcome with
    | .ok r =>
        let s4 := { s3 with result := some r }
        ⟨some payload, [s1, s2, s3, s4, { s4 with loading := false }]⟩
    | .error e =>
        let s4 := { s3 with error := some (classifyError e) }
        ⟨some payload, [s1, s2, s3, s4, { s4 with loading := false }]⟩

/-- Verdict colour of the basic `App.jsx` rendering (lines 91-97):
`includes('True')` gives success, else `includes('False')` gives danger,
else warning. -/
def verdictColorBasic (v : String) : String :=
  if includes v "True" then "var(--color-success)"
  else if includes v "False" then "var(--color-danger)"
  else "var(--color-warning)"

/-- Verdict colour of the richer rendering shared by `part_000` (lines
107-109) and the hardened `part_001` (lines 112-114): `includes('True')`
gives success, else `includes('False') || includes('Misleading')` gives
danger, else warning. -/
def verdictColorRich (v : String) : String :=
  if includes v "True" then "var(--color-success)"
  else if includes v "False" || includes v "Misleading" then
    "var(--color-danger)"
  else "var(--color-warning)"

/-- Verdict icon of the richer rendering (`part_001` lines 126-127,
`part_000` lines 121-122). -/
def verdictIconRich (v : String) : String :=
  if includes v "True" then "✅"
  else if includes v "False" || includes v "Misleading" then "⚠️"
  else "❓"

/-- Mutual-exclusion invariant of the hardened variant: at most one of
`result` and `error` is populated. -/
def exclusiveOK (s : HardenedState) : Prop :=
  s.result = none ∨ s.error = none

/-- Is every character of the string a space, tab, line feed or carriage
return?  (Scopes the whitespace-only statements; the code itself never
trims or inspects individual characters.) -/
def whitespaceOnly (s : String) : Bool :=
  s.toList.all fun c => c == ' ' || c == '\t' || c == '\n' || c == '\r'

/-- C2: when `ClaimText` is empty and (basic variant) no image is stored,
`analyzeClaim` dispatches no request, produces no state transition at all
(empty trace, final state equals the pre-state) and surfaces no message.
The basic guard needs both conditions, the hardened guard only the empty
claim. -/
theorem analyze_empty_input_noop (sB : BasicState) (oB : BasicFetchOutcome)
    (sH : HardenedState) (oH : FetchOutcome)
    (hB : sB.claim = "" ∧ sB.imageBase64 = none) (hH : sH.claim = "") :
    analyzeClaimBasic sB oB = ⟨none, [], none⟩ ∧
    finalState sB (analyzeClaimBasic sB oB).trace = sB ∧
    analyzeClaimHardened sH oH = ⟨none, []⟩ ∧
    finalState sH (analyzeClaimHardened sH oH).trace = sH := by
  simp [analyzeClaimBasic, analyzeClaimHardened, hB.1, hB.2, hH, finalState]

/-- Witness for `analyze_empty_input_noop` at concrete empty inputs. -/
theorem analyze_empty_input_noop_witness :
    analyzeClaimBasic ⟨"", none, none, false⟩ .networkError =
      ⟨none, [], none⟩ ∧
    analyzeClaimHardened initialHardenedState .timeoutAbort = ⟨none, []⟩ :=
  ⟨(analyze_empty_input_noop ⟨"", none, none, false⟩ .networkError
      initialHardenedState .timeoutAbort ⟨rfl, rfl⟩ rfl).1,
   (analyze_empty_input_noop ⟨"", none, none, false⟩ .networkError
      initialHardenedState .timeoutAbort ⟨rfl, rfl⟩ rfl).2.2.1⟩

/-- C6: whenever the guard passes, the dispatched body is exactly
`{ text: claim, image_base64: ... }` - the stored image (or null) in the
basic variant, always null in the hardened variant - for every fetch
outcome. -/
theorem analyze_payload_shape (sB : BasicState) (oB : BasicFetchOutcome)
    (sH : HardenedState) (oH : FetchOutcome)
    (hB : ¬(sB.claim = "" ∧ sB.imageBase64 = none)) (hH : sH.claim ≠ "") :
    (analyzeClaimBasic sB oB).request =
      some { text := sB.claim, image_base64 := sB.imageBase64 } ∧
    (analyzeClaimHardened sH oH).request =
      some { text := sH.claim, image_base64 := none } := by
  constructor
  · cases h : basicTryBody oB <;> simp [analyzeClaimBasic, hB, h]
  · cases h : hardenedTryBody oH <;> simp [analyzeClaimHardened, hH, h]

/-- Witness for `analyze_payload_shape` at a concrete claim with a stored
image (basic) and without one (hardened). -/
theorem analyze_payload_shape_witness :
    (analyzeClaimBasic
        ⟨"Garlic cures flu", some "data:image/png;base64,AAAA", none, false⟩
        .networkError).request =
      some { text := "Garlic cures flu",
             image_base64 := some "data:image/png;base64,AAAA" } ∧
    (analyzeClaimHardened ⟨"Garlic cures flu", none, none, false, none⟩
        .networkError).request =
      some { text := "Garlic cures flu", image_base64 := none } :=
  analyze_payload_shape
    ⟨"Garlic cures flu", some "data:image/png;base64,AAAA", none, false⟩
    .networkError ⟨"Garlic cures flu", none, none, false, none⟩
    .networkError (by decide) (by decide)

/-- C4: whenever the guard passes, in both variants, the first state
transition sets `loading` to true and the state each invocation ends in has
`loading` false, for every fetch outcome (success, HTTP error, parse
failure, network failure, and - hardened variant - timeout): the `finally`
block always clears the flag. -/
theorem analyze_loading_lifecycle (sB : BasicState) (oB : BasicFetchOutcome)
    (sH : HardenedState) (oH : FetchOutcome)
    (hB : ¬(sB.claim = "" ∧ sB.imageBase64 = none)) (hH : sH.claim ≠ "") :
    ((analyzeClaimBasic sB oB).trace.head?.map BasicState.loading =
       some true ∧
     (finalState sB (analyzeClaimBasic sB oB).trace).loading = false) ∧
    ((analyzeClaimHardened sH oH).trace.head?.map HardenedState.loading =
       some true ∧
     (finalState sH (analyzeClaimHardened sH oH).trace).loading = false) := by
  constructor
  · cases h : basicTryBody oB <;>
      simp [analyzeClaimBasic, hB, h, finalState]
  · cases h : hardenedTryBody oH <;>
      simp [analyzeClaimHardened, hH, h, finalState]

/-- Witness for `analyze_loading_lifecycle`: a parse-failure run of the
basic variant and a timeout run of the hardened variant. -/
theorem analyze_loading_lifecycle_witness :
    ((analyzeClaimBasic ⟨"x", none, none, false⟩
        (.response 200 none)).trace.head?.map BasicState.loading =
       some true ∧
     (finalState (⟨"x", none, none, false⟩ : BasicState)
        (analyzeClaimBasic ⟨"x", none, none, false⟩
          (.response 200 none)).trace).loading = false) ∧
    ((analyzeClaimHardened ⟨"x", none, none, false, none⟩
        .timeoutAbort).trace.head?.map HardenedState.loading = some true ∧
     (finalState (⟨"x", none, none, false, none⟩ : HardenedState)
        (analyzeClaimHardened ⟨"x", none, none, false, none⟩
          .timeoutAbort).trace).loading = false) :=
  analyze_loading_lifecycle ⟨"x", none, none, false⟩ (.response 200 none)
    ⟨"x", none, none, false, none⟩ .timeoutAbort (by decide) (by decide)

/-- C5: in the hardened variant, at most one of `result` and `error` is ever
populated: the initial hook state satisfies the invariant, and every
intermediate state of any invocation of `analyzeClaim` satisfies it, for
every fetch outcome, provided the pre-state did (both fields are cleared at
the start, success sets only `result`, failure sets only `error`). -/
theorem analyze_mutual_exclusion (s : HardenedState) (o : FetchOutcome)
    (hpre : exclusiveOK s) :
    exclusiveOK initialHardenedState ∧
    ∀ t ∈ (analyzeClaimHardened s o).trace, exclusiveOK t := by
  refine ⟨Or.inl rfl, ?_⟩
  intro t ht
  by_cases hc : s.claim = ""
  · simp [analyzeClaimHardened, hc] at ht
  · cases h : hardenedTryBody o <;>
      simp [analyzeClaimHardened, hc, h] at ht <;>
      rcases ht with rfl | rfl | rfl | rfl | rfl <;>
      simp [exclusiveOK] <;> exact hpre

/-- Witness for `analyze_mutual_exclusion`: the state a successful run ends
in (reached from a pre-state carrying a leftover error) still satisfies the
invariant. -/
theorem analyze_mutual_exclusion_witness :
    exclusiveOK
      (⟨"x", none, some ⟨"True", 1, "ok", none, []⟩, false, none⟩ :
        HardenedState) :=
  (analyze_mutual_exclusion ⟨"x", none, none, false, some connectMessage⟩
      (.response 200 (some ⟨"True", 1, "ok", none, []⟩)) (Or.inl rfl)).2
    ⟨"x", none, some ⟨"True", 1, "ok", none, []⟩, false, none⟩ (by decide)

/-- C3: in the hardened variant, a timeout abort ends with `error` set to
the timeout-specific message, any other network-level failure ends with the
generic connectivity message, the two messages differ, and `result` stays
empty in both cases. -/
theorem hardened_failure_classification (s : HardenedState)
    (h : s.claim ≠ "") :
    (finalState s (analyzeClaimHardened s .timeoutAbort).trace).error =
      some timeoutMessage ∧
    (finalState s (analyzeClaimHardened s .timeoutAbort).trace).result =
      none ∧
    (finalState s (analyzeClaimHardened s .networkError).trace).error =
      some connectMessage ∧
    (finalState s (analyzeClaimHardened s .networkError).trace).result =
      none ∧
    timeoutMessage ≠ connectMessage := by
  refine ⟨?_, ?_, ?_, ?_, by decide⟩ <;>
    simp [analyzeClaimHardened, hardenedTryBody, classifyError, h,
      finalState]

/-- Witness for `hardened_failure_classification` at a concrete state. -/
theorem hardened_failure_classification_witness :
    (finalState (⟨"x", none, none, false, none⟩ : HardenedState)
        (analyzeClaimHardened ⟨"x", none, none, false, none⟩
          .timeoutAbort).trace).error = some timeoutMessage ∧
    (finalState (⟨"x", none, none, false, none⟩ : HardenedState)
        (analyzeClaimHardened ⟨"x", none, none, false, none⟩
          .timeoutAbort).trace).result = none ∧
    (finalState (⟨"x", none, none, false, none⟩ : HardenedState)
        (analyzeClaimHardened ⟨"x", none, none, false, none⟩
          .networkError).trace).error = some connectMessage ∧
    (finalState (⟨"x", none, none, false, none⟩ : HardenedState)
        (analyzeClaimHardened ⟨"x", none, none, false, none⟩
          .networkError).trace).result = none ∧
    timeoutMessage ≠ connectMessage :=
  hardened_failure_classification ⟨"x", none, none, false, none⟩ (by decide)

/-- C1: evaluation of the hardened variant on an HTTP 500 response.  The
thrown message `Server error: 500` does embed the status code, but the
`catch` block classifies the thrown `Error` by name and, since it is not an
`AbortError`, overwrites it with the generic connectivity message, which
does not contain "500".  `result` stays empty.  This contradicts the spec's
"message embedding the status code" and is a slip in the code: it reports a
connection failure although the server answered. -/
theorem hardened_http_error_message_eval :
    includes (serverErrorMessage 500) "500" = true ∧
    includes connectMessage "500" = false ∧
    (finalState
        (⟨"Lemon water cures cancer", none, none, false, none⟩ :
          HardenedState)
        (analyzeClaimHardened
          ⟨"Lemon water cures cancer", none, none, false, none⟩
          (.response 500
            (some ⟨"Internal Server Error", 0, "", none, []⟩))).trace).error =
      some connectMessage ∧
    (finalState
        (⟨"Lemon water cures cancer", none, none, false, none⟩ :
          HardenedState)
        (analyzeClaimHardened
          ⟨"Lemon water cures cancer", none, none, false, none⟩
          (.response 500
            (some ⟨"Internal Server Error", 0, "", none, []⟩))).trace).result =
      none := by decide

/-- C7 counterexample: the claim says the literal "Misleading" selects the
warning class in both variants, but the rendering shared by `part_000` and
the hardened `part_001` puts `includes('Misleading')` in the danger branch:
verdict "Misleading" gets the danger colour and the warning icon slot,
never the warning colour. -/
theorem verdict_misleading_not_warning :
    verdictColorRich "Misleading" = "var(--color-danger)" ∧
    verdictColorRich "Misleading" ≠ "var(--color-warning)" ∧
    verdictIconRich "Misleading" = "⚠️" := by decide

/-- C7 amended: severity is selected by substring containment in both
renderings; "True" maps to success and "False" to danger in both, and any
verdict containing "False" but not "True" gets danger styling in both; but
"Misleading" maps to warning only in the basic `App.jsx` rendering and to
danger in the `part_000`/`part_001` rendering. -/
theorem verdict_substring_classification :
    verdictColorBasic "True" = "var(--color-success)" ∧
    verdictColorBasic "False" = "var(--color-danger)" ∧
    verdictColorBasic "Misleading" = "var(--color-warning)" ∧
    verdictColorRich "True" = "var(--color-success)" ∧
    verdictColorRich "False" = "var(--color-danger)" ∧
    verdictColorRich "Misleading" = "var(--color-danger)" ∧
    (∀ v, includes v "True" = false → includes v "False" = true →
      verdictColorBasic v = "var(--color-danger)" ∧
      verdictColorRich v = "var(--color-danger)") := by
  refine ⟨by decide, by decide, by decide, by decide, by decide, by decide,
    ?_⟩
  intro v h1 h2
  simp [verdictColorBasic, verdictColorRich, h1, h2]

/-- Witness for `verdict_substring_classification` at a verdict containing
"False" but not "True". -/
theorem verdict_substring_classification_witness :
    includes "Plainly False" "True" = false ∧
    includes "Plainly False" "False" = true ∧
    verdictColorBasic "Plainly False" = "var(--color-danger)" ∧
    verdictColorRich "Plainly False" = "var(--color-danger)" :=
  ⟨by decide, by decide,
    (verdict_substring_classification.2.2.2.2.2.2 "Plainly False"
      (by decide) (by decide)).1,
    (verdict_substring_classification.2.2.2.2.2.2 "Plainly False"
      (by decide) (by decide)).2⟩

/-- C8: the basic variant performs no status check: a response with a
non-2xx status and a valid JSON body produces exactly the same run as the
same body at status 200 - the parsed body is stored as the result and no
alert is surfaced. -/
theorem basic_non2xx_rendered_as_result (s : BasicState) (status : Nat)
    (r : AnalysisResult) (hguard : ¬(s.claim = "" ∧ s.imageBase64 = none))
    (hstatus : httpOk status = false) :
    analyzeClaimBasic s (.response status (some r)) =
      analyzeClaimBasic s (.response 200 (some r)) ∧
    (finalState s
        (analyzeClaimBasic s (.response status (some r))).trace).result =
      some r ∧
    (analyzeClaimBasic s (.response status (some r))).alert = none := by
  refine ⟨rfl, ?_, ?_⟩ <;>
    simp [analyzeClaimBasic, basicTryBody, hguard, finalState]

/-- Witness for `basic_non2xx_rendered_as_result` at HTTP 500 with a
well-formed body. -/
theorem basic_non2xx_rendered_as_result_witness :
    analyzeClaimBasic ⟨"x", none, none, false⟩
        (.response 500
          (some ⟨"False", 19/20, "No evidence", none, ["WHO"]⟩)) =
      analyzeClaimBasic ⟨"x", none, none, false⟩
        (.response 200
          (some ⟨"False", 19/20, "No evidence", none, ["WHO"]⟩)) ∧
    (finalState (⟨"x", none, none, false⟩ : BasicState)
        (analyzeClaimBasic ⟨"x", none, none, false⟩
          (.response 500
            (some ⟨"False", 19/20, "No evidence",
              none, ["WHO"]⟩))).trace).result =
      some ⟨"False", 19/20, "No evidence", none, ["WHO"]⟩ ∧
    (analyzeClaimBasic ⟨"x", none, none, false⟩
        (.response 500
          (some ⟨"False", 19/20, "No evidence", none, ["WHO"]⟩))).alert =
      none :=
  basic_non2xx_rendered_as_result ⟨"x", none, none, false⟩ 500
    ⟨"False", 19/20, "No evidence", none, ["WHO"]⟩ (by decide) (by decide)

/-- C9: `includes('True')` is tested first in every rendering, so any
verdict containing "True" selects the success colour (and the success icon
in the richer rendering) even if it also contains "False" or
"Misleading". -/
theorem verdict_true_precedence (v : String)
    (h : includes v "True" = true) :
    verdictColorBasic v = "var(--color-success)" ∧
    verdictColorRich v = "var(--color-success)" ∧
    verdictIconRich v = "✅" := by
  simp [verdictColorBasic, verdictColorRich, verdictIconRich, h]

/-- Witness for `verdict_true_precedence` at a verdict containing both
"True" and "False". -/
theorem verdict_true_precedence_witness :
    includes "Not True, actually False" "True" = true ∧
    includes "Not True, actually False" "False" = true ∧
    verdictColorRich "Not True, actually False" =
      "var(--color-success)" :=
  ⟨by decide, by decide,
    (verdict_true_precedence "Not True, actually False" (by decide)).2.1⟩

/-- C10: the guard tests only JavaScript falsiness of the claim string, so
any non-empty whitespace-only claim passes it and a request is dispatched:
in the hardened variant with a null image field, in the basic variant
regardless of the stored image (the guard's image conjunct is moot once the
claim is non-empty). -/
theorem whitespace_claim_passes_guard (sB : BasicState)
    (oB : BasicFetchOutcome) (sH : HardenedState) (oH : FetchOutcome)
    (hB : sB.claim ≠ "") (hwB : whitespaceOnly sB.claim = true)
    (hH : sH.claim ≠ "") (hwH : whitespaceOnly sH.claim = true) :
    (analyzeClaimBasic sB oB).request =
      some { text := sB.claim, image_base64 := sB.imageBase64 } ∧
    (analyzeClaimHardened sH oH).request =
      some { text := sH.claim, image_base64 := none } := by
  have hB2 : ¬(sB.claim = "" ∧ sB.imageBase64 = none) := fun hc => hB hc.1
  constructor
  · cases h : basicTryBody oB <;> simp [analyzeClaimBasic, hB2, h]
  · cases h : hardenedTryBody oH <;> simp [analyzeClaimHardened, hH, h]

/-- Witness for `whitespace_claim_passes_guard` at the single-space claim,
with an image stored in the basic variant. -/
theorem whitespace_claim_passes_guard_witness :
    whitespaceOnly " " = true ∧
    (analyzeClaimBasic ⟨" ", some "data:image/png;base64,AAAA", none, false⟩
        .networkError).request =
      some { text := " ",
             image_base64 := some "data:image/png;base64,AAAA" } ∧
    (analyzeClaimHardened ⟨" ", none, none, false, none⟩
        .networkError).request =
      some { text := " ", image_base64 := none } :=
  ⟨by decide,
   (whitespace_claim_passes_guard
      ⟨" ", some "data:image/png;base64,AAAA", none, false⟩ .networkError
      ⟨" ", none, none, false, none⟩ .networkError
      (by decide) (by decide) (by decide) (by decide)).1,
   (whitespace_claim_passes_guard
      ⟨" ", some "data:image/png;base64,AAAA", none, false⟩ .networkError
      ⟨" ", none, none, false, none⟩ .networkError
      (by decide) (by decide) (by decide) (by decide)).2⟩
